import Mathlib

/-!
Verification of the winproc process/thread/module introspection library.

The Rust sources embedded here are `src/process/mod.rs` and `src/process.rs`.
Operating-system calls (OpenProcess, GetExitCodeProcess, SetThreadAffinityMask,
EnumProcessModulesEx, Toolhelp32 snapshots, ...) are external collaborators;
they are modelled as explicit oracles/state machines following the contracts
stated in the specification (subset enforcement for affinity masks, the 259
still-active sentinel, byte-counted module enumeration, snapshot tables).
Pure Rust code is translated function by function; fallible code returns
`Option`/`Except`, and a Rust `panic` (from `unwrap()`) is modelled as a
distinguished outcome so that it is not conflated with returning an error.
-/

set_option maxRecDepth 8000

/-- Modelled from the spec: the crate's `Error` enum (its defining file is not
under `src/`; spec §7 gives the taxonomy): an OS error wrapping the last
platform error code, a "no process with that name" failure carrying the name,
and an invalid-name-encoding failure (`NulErrorW`) carrying the offending
position and raw data. -/
inductive WinError where
  | osError (code : Nat)
  | noProcess (name : String)
  | nulErrorW (pos : Nat) (data : List Nat)
  deriving DecidableEq, Repr

/-- Decidable equality for `Except`, needed so that concrete membership and
equality facts about modelled results can be settled by `decide`. -/
instance {ε α : Type} [DecidableEq ε] [DecidableEq α] : DecidableEq (Except ε α) := fun a b =>
  match a, b with
  | .ok x, .ok y =>
    if h : x = y then .isTrue (by rw [h]) else .isFalse (by intro hc; cases hc; exact h rfl)
  | .error x, .error y =>
    if h : x = y then .isTrue (by rw [h]) else .isFalse (by intro hc; cases hc; exact h rfl)
  | .ok _, .error _ => .isFalse (by intro hc; cases hc)
  | .error _, .ok _ => .isFalse (by intro hc; cases hc)

/-- Model of one process value yielded by the live enumeration `Process::all()`:
its process id together with the outcome of querying its executable name
(`Process::name()`), which is an OS oracle from the point of view of the
scanning code in `Process::from_name`. -/
structure ProcSim where
  pid : Nat
  nameRes : Except WinError String
  deriving DecidableEq, Repr

/-- The match predicate used inside `Process::from_name`
(src/process/mod.rs:88): `p.name().map(|n| n == name).unwrap_or(false)` —
an errored name query is treated as `false`, i.e. a non-match. -/
def nameMatches (target : String) (p : ProcSim) : Bool :=
  match p.nameRes with
  | .ok n => n == target
  | .error _ => false

namespace Process

/-- Embedding of `Process::from_name` (src/process/mod.rs:86-90 and
src/process.rs:72-76).  The first argument is the outcome of `Process::all()`:
either the enumeration failed to open (the `?` operator propagates that error)
or it produced a list of processes, which is scanned with `find` for the first
entry matching `nameMatches`; if none matches the result is
`Error::NoProcess(name)`. -/
def from_name (allRes : Except WinError (List ProcSim)) (target : String) :
    Except WinError ProcSim :=
  match allRes with
  | .error e => .error e
  | .ok ps =>
    match ps.find? (nameMatches target) with
    | some p => .ok p
    | none => .error (.noProcess target)

end Process

/-- State of one process as seen by the `GetExitCodeProcess` collaborator:
still running, terminated with a real exit code, or a process whose exit
status cannot be queried at all (the call fails and writes nothing). -/
inductive ProcStatus where
  | running
  | terminated (code : Nat)
  | queryFails
  deriving DecidableEq, Repr

/-- Model of the `GetExitCodeProcess` collaborator: on success it writes the
exit status (the 259 still-active sentinel for a running process, the real
exit code for a terminated one); on failure it leaves the caller's `status`
variable untouched, which is why it takes that variable's prior value. -/
def getExitCodeProcess (st : ProcStatus) (statusVar : Nat) : Nat :=
  match st with
  | .running => 259
  | .terminated c => c
  | .queryFails => statusVar

namespace Process

/-- Embedding of `Process::is_running` (src/process/mod.rs:152-158):
`let mut status = 0; GetExitCodeProcess(handle, &mut status); status == 259`.
The return value of the OS call itself is ignored; the `status` variable is
initialised to 0 and compared against the 259 sentinel. -/
def is_running (st : ProcStatus) : Bool :=
  getExitCodeProcess st 0 == 259

end Process

/-- Path separator test for the two Windows separators, used by the model of
`std::path::Path::file_name`. -/
def pathSep (c : Char) : Bool :=
  c = '/' ∨ c = '\\'

/-- Splits a character list at path separators (both separators of the target
platform), keeping empty pieces; helper for the `Path::file_name` model. -/
def splitComponents : List Char → List (List Char)
  | [] => [[]]
  | c :: rest =>
    let r := splitComponents rest
    if pathSep c then [] :: r
    else
      match r with
      | [] => [[c]]
      | h :: t => (c :: h) :: t

/-- Model of the `std::path::Path::file_name` collaborator on a decoded path:
the last non-empty, non-`.` component, and `none` when there is no component
at all or the path terminates in `..` (the cases Rust documents as returning
`None`). -/
def fileName (p : List Char) : Option (List Char) :=
  match ((splitComponents p).filter
      (fun t => !(t == [] || t == ['.']))).getLast? with
  | none => none
  | some t => if t = ['.', '.'] then none else some t

/-- Outcome of running `Process::name`: a returned name, a returned error, or
a Rust panic (the `unwrap()` on `Path::file_name`'s `Option`). -/
inductive NameOutcome where
  | ok (s : List Char)
  | err (e : WinError)
  | panicked
  deriving DecidableEq, Repr

namespace Process

/-- Embedding of `Process::name` (src/process/mod.rs:180-187 and
src/process.rs:141-148): `self.path()?.file_name().unwrap().to_string_lossy()`.
The argument is the outcome of the `path()` query (an OS-error or the decoded
path); a path error is propagated by `?`, and a path with no filename
component hits `.unwrap()` on `None`, i.e. panics.  Lossy re-encoding of the
already-decoded characters is the identity in this model. -/
def name (pathRes : Except WinError (List Char)) : NameOutcome :=
  match pathRes with
  | .error e => .err e
  | .ok p =>
    match fileName p with
    | some f => .ok f
    | none => .panicked

end Process

/-- Bit width of the Rust `usize` mask type on the 64-bit target,
`mem::size_of::<usize>() * 8`. -/
def usizeBits : Nat := 64

/-- The all-ones mask `DWORD_PTR::max_value()` used by the read-back trick. -/
def dwordPtrMax : Nat := 2 ^ usizeBits - 1

/-- Affinity state of one thread as the OS sees it: the thread's current
affinity mask and the owning process's affinity mask. -/
structure ThreadState where
  threadMask : Nat
  processMask : Nat
  deriving DecidableEq, Repr

/-- Model of the `SetThreadAffinityMask` collaborator: on success it installs
the requested mask and returns the thread's previous affinity mask; it fails
(returns 0, leaving the state unchanged — modelled as `none`) when the
requested mask is empty or is not a subset of the owning process's affinity
mask, the OS-enforced subset rule stated in spec §4.4 and in the source's own
doc comment on `Thread::set_affinity_mask`. -/
def setThreadAffinityMaskOS (s : ThreadState) (mask : Nat) : Option (Nat × ThreadState) :=
  if mask ≠ 0 ∧ Nat.land mask s.processMask = mask then
    some (s.threadMask, { s with threadMask := mask })
  else none

namespace Thread

/-- Embedding of `Thread::affinity_mask` (src/process.rs:334-348), the
set/read-back/restore trick, including the source's shadowing of `ret`:
`let ret = Set(handle, DWORD_PTR::max_value()); ... let ret = Set(handle, ret);
... Ok(ret)` — the value returned on success is the SECOND call's return
value.  A failed call is modelled as `none`; the state after the call is
threaded explicitly. -/
def affinity_mask (s : ThreadState) : Option Nat × ThreadState :=
  match setThreadAffinityMaskOS s dwordPtrMax with
  | none => (none, s)
  | some (ret, s1) =>
    match setThreadAffinityMaskOS s1 ret with
    | none => (none, s1)
    | some (ret2, s2) => (some ret2, s2)

/-- Embedding of `Thread::set_affinity_mask` (src/process.rs:364-373): one
`SetThreadAffinityMask` call, returning the previous mask on success. -/
def set_affinity_mask (s : ThreadState) (mask : Nat) : Option Nat × ThreadState :=
  match setThreadAffinityMaskOS s mask with
  | none => (none, s)
  | some (ret, s1) => (some ret, s1)

/-- Embedding of `Thread::set_affinity` (src/process.rs:379-386): an index at
or above the `usize` bit width falls back to `affinity_mask()` (no change
intended), otherwise it delegates to `set_affinity_mask(1 << processor)`. -/
def set_affinity (s : ThreadState) (processor : Nat) : Option Nat × ThreadState :=
  if processor ≥ usizeBits then affinity_mask s
  else set_affinity_mask s (2 ^ processor)

end Thread

/-- `MAX_MODULE_NAME32` from the Windows headers; `szModule` holds
`MAX_MODULE_NAME32 + 1 = 256` wide characters. -/
def MAX_MODULE_NAME32 : Nat := 255

/-- `MAX_PATH` from the Windows headers; `szExePath` holds 260 wide
characters. -/
def MAX_PATH : Nat := 260

/-- The raw Toolhelp module-snapshot record `MODULEENTRY32W`, with the two
fixed-size wide-character buffers kept as lists of UTF-16 code units. -/
structure MODULEENTRY32W where
  th32ModuleID : Nat
  th32ProcessID : Nat
  GlblcntUsage : Nat
  ProccntUsage : Nat
  modBaseAddr : Nat
  modBaseSize : Nat
  hModule : Nat
  szModule : List Nat
  szExePath : List Nat
  deriving DecidableEq, Repr

/-- The crate's `ModuleEntry` value type (src/process.rs:471-482); the decoded
name and path are kept as code-unit lists (the UTF-16-to-String lossy decoding
is an external text-encoding collaborator and is the identity on the code-unit
level at which the claim speaks). -/
structure ModuleEntry where
  id : Nat
  name : List Nat
  path : List Nat
  hmodule : Nat
  process_id : Nat
  global_load_count : Nat
  proc_load_count : Nat
  mod_base_addr : Nat
  mod_base_size : Nat
  deriving DecidableEq, Repr

/-- Rust range slicing `&buf[..end]`: defined exactly when `end ≤ buf.len()`;
an out-of-range end panics, modelled as `none`. -/
def sliceTo (l : List Nat) (n : Nat) : Option (List Nat) :=
  if n ≤ l.length then some (l.take n) else none

/-- Embedding of `impl From<MODULEENTRY32W> for ModuleEntry`
(src/process.rs:484-514).  `name_end`/`path_end` are the positions of the
first zero code unit; the no-terminator fallback is `me.szModule.len()` in
BOTH branches — the source's path branch really reads
`unwrap_or_else(|| me.szModule.len())`, not `me.szExePath.len()`. -/
def moduleEntryFrom (me : MODULEENTRY32W) : Option ModuleEntry :=
  let name_end := (me.szModule.findIdx? (fun b => b == 0)).getD me.szModule.length
  match sliceTo me.szModule name_end with
  | none => none
  | some nameUnits =>
    let path_end := (me.szExePath.findIdx? (fun b => b == 0)).getD me.szModule.length
    match sliceTo me.szExePath path_end with
    | none => none
    | some pathUnits =>
      some { id := me.th32ModuleID, name := nameUnits, path := pathUnits,
             hmodule := me.hModule, process_id := me.th32ProcessID,
             global_load_count := me.GlblcntUsage, proc_load_count := me.ProccntUsage,
             mod_base_addr := me.modBaseAddr, mod_base_size := me.modBaseSize }

/-- `mem::size_of::<HMODULE>()` on the 64-bit target: 8 bytes per handle
slot. -/
def handleSize : Nat := 8

/-- `mem::size_of_val(&mod_handles[..])`: the byte size of the handle
buffer. -/
def bufferBytes (buf : List Nat) : Nat := buf.length * handleSize

/-- Model of the write performed by the `EnumProcessModulesEx` collaborator:
with `cb = bufferBytes buf` there is room for `buf.length` handles, so the
call copies as many of the process's module handles as fit into the front of
the buffer, leaving the rest of the buffer untouched. -/
def enumProcessModulesWrite (mods buf : List Nat) : List Nat :=
  mods.take buf.length ++ buf.drop mods.length

/-- The byte count reported through `lpcbNeeded` by `EnumProcessModulesEx`:
the total number of bytes required to store all module handles. -/
def enumProcessModulesNeeded (mods : List Nat) : Nat :=
  mods.length * handleSize

/-- Result of one iteration of the retry loop in `Process::module_list`:
either the loop breaks with the filled buffer and the needed byte count, or
it retries with a resized buffer and an updated `reserved`. -/
inductive ModuleListStep where
  | done (buf : List Nat) (needed : Nat)
  | again (buf : List Nat) (reserved : Nat)
  deriving DecidableEq, Repr

/-- `Vec::resize(n, 0)` on the handle buffer: truncate or pad with zeroed
handles to exactly `n` ELEMENTS. -/
def listResize (l : List Nat) (n : Nat) : List Nat :=
  l.take n ++ List.replicate (n - l.length) 0

/-- One iteration of the loop in `Process::module_list`
(src/process/mod.rs:313-320): call `EnumProcessModulesEx`, break when
`needed <= reserved`, otherwise set `reserved = needed` and execute
`mod_handles.resize(needed as usize, zeroed())` — `needed` counts BYTES while
`Vec::resize` takes an ELEMENT count, so the buffer becomes `needed` slots,
i.e. `needed * handleSize` bytes. -/
def moduleListStep (mods buf : List Nat) (reserved : Nat) : ModuleListStep :=
  let filled := enumProcessModulesWrite mods buf
  let needed := enumProcessModulesNeeded mods
  if needed ≤ reserved then .done filled needed
  else .again (listResize filled needed) needed

/-- The Rust `loop` of `Process::module_list`, driven by fuel: repeatedly take
`moduleListStep` until it breaks.  Fuel exhaustion (`none`) models
non-termination; with a module list that is stable across calls the loop in
fact always breaks by its second iteration (proved below), so fuel 2 is
exact. -/
def moduleListLoop (mods : List Nat) : Nat → List Nat → Nat → Option (List Nat × Nat)
  | 0, _, _ => none
  | fuel + 1, buf, reserved =>
    match moduleListStep mods buf reserved with
    | .done b n => some (b, n)
    | .again b r => moduleListLoop mods fuel b r

namespace Process

/-- Embedding of `Process::module_list` (src/process/mod.rs:291-332): run the
measure/fill retry loop starting from an empty buffer and `reserved = 0`, then
return one `Module` per filled slot — the first `needed / size_of::<HMODULE>()`
buffer entries — each paired with the issuing process
(`Module { handle, process: self }` is modelled as the pair of the handle and
the process id). -/
def module_list (pid : Nat) (mods : List Nat) : Option (List (Nat × Nat)) :=
  match moduleListLoop mods 2 [] 0 with
  | none => none
  | some (buf, needed) =>
    some ((buf.take (needed / handleSize)).map (fun h => (h, pid)))

end Process

/-- The raw Toolhelp thread-table record, restricted to the two fields the
iterator reads. -/
structure THREADENTRY32 where
  th32ThreadID : Nat
  th32OwnerProcessID : Nat
  deriving DecidableEq, Repr

/-- An opened thread as produced by `Thread::from_id`: a live handle whose
`GetThreadId` is the id it was opened from. -/
structure ThreadHandle where
  tid : Nat
  deriving DecidableEq, Repr

/-- Model of `Thread::from_id` (`OpenThread`): the oracle decides which thread
ids can currently be opened; a failed open is an OS error, modelled `none`. -/
def threadFromId (openOk : Nat → Bool) (tid : Nat) : Option ThreadHandle :=
  if openOk tid then some ⟨tid⟩ else none

/-- Embedding of the `ThreadIter` iterator (src/process.rs:423-442) run to
exhaustion over a thread-table snapshot: it advances entry by entry, skips
every entry whose `th32OwnerProcessID` differs from the process's id, and for
each matching entry yields the `WinResult<Thread>` produced by
`Thread::from_id(entry.th32ThreadID)`. -/
def threadIterItems (pid : Nat) (openOk : Nat → Bool)
    (entries : List THREADENTRY32) : List (Option ThreadHandle) :=
  (entries.filter (fun e => e.th32OwnerProcessID == pid)).map
    (fun e => threadFromId openOk e.th32ThreadID)

/-- Embedding of `Process::threads` (src/process/mod.rs:241-254): the
`ThreadIter` sequence with `.filter_map(Result::ok)` applied, so entries whose
per-thread open failed are dropped and iteration continues. -/
def threadsOf (pid : Nat) (openOk : Nat → Bool)
    (entries : List THREADENTRY32) : List ThreadHandle :=
  (threadIterItems pid openOk entries).filterMap id

/-- A module-snapshot record both of whose wide-string buffers are completely
filled with the nonzero code unit 97 — no zero terminator anywhere. -/
def meNoTerm : MODULEENTRY32W :=
  { th32ModuleID := 1, th32ProcessID := 2, GlblcntUsage := 3, ProccntUsage := 4,
    modBaseAddr := 5, modBaseSize := 6, hModule := 9,
    szModule := List.replicate 256 97, szExePath := List.replicate 260 97 }

/-- Claim C1: after a successful `set_affinity_mask(m)`, `affinity_mask()` was
claimed to succeed, return `m`, and leave the mask at `m`.  Evaluating the
embedded code at thread mask 1, full process mask, `m = 2`: the set call
succeeds and installs mask 2, the read-back succeeds and does leave the mask
at 2, but it returns the all-ones mask (the restore call's return value,
because the source shadows `ret`), not `m = 2`. -/
theorem c1_readback_returns_allones :
    Thread.set_affinity_mask ⟨1, dwordPtrMax⟩ 2 = (some 1, ⟨2, dwordPtrMax⟩) ∧
    Thread.affinity_mask ⟨2, dwordPtrMax⟩ = (some dwordPtrMax, ⟨2, dwordPtrMax⟩) ∧
    dwordPtrMax ≠ 2 := by
  decide

/-- Claim C2: for a processor index at or above the `usize` bit width,
`set_affinity` was claimed to leave the mask unchanged and return the mask
already in effect.  Evaluating the embedded code at index 64 from thread mask
1, full process mask: the mask is indeed left unchanged, but the call returns
the all-ones mask (via the shadowed read-back), not the prior mask 1; for an
in-range index the call is exactly `set_affinity_mask(1 << p)`. -/
theorem c2_set_affinity_out_of_range_eval :
    Thread.set_affinity ⟨1, dwordPtrMax⟩ 64 = (some dwordPtrMax, ⟨1, dwordPtrMax⟩) ∧
    dwordPtrMax ≠ 1 ∧
    Thread.set_affinity ⟨1, dwordPtrMax⟩ 2 = Thread.set_affinity_mask ⟨1, dwordPtrMax⟩ (2 ^ 2) := by
  decide

/-- Claim C3: the conversion was claimed to treat a terminator-free buffer "in
its entirety" as the string.  Evaluating the embedded conversion on a record
whose 260-slot `szExePath` has no zero terminator: the conversion does succeed
(it is total), the name takes all 256 slots of `szModule`, but the path keeps
only 256 of the 260 path slots, because the source's fallback for the path is
`me.szModule.len()`. -/
theorem c3_path_not_full_buffer_eval :
    meNoTerm.szExePath.length = MAX_PATH ∧
    meNoTerm.szExePath.findIdx? (fun b => b == 0) = none ∧
    (moduleEntryFrom meNoTerm).map (fun e => (e.name.length, e.path.length)) =
      some (256, 256) ∧
    (256 : Nat) ≠ MAX_PATH := by
  decide

/-- Claim C4 (counterexample): the retry was claimed to resize the buffer
exactly to the needed size.  With a single loaded module, the first iteration
reports `needed = 8` bytes and retries — but the resized buffer has 8 slots,
i.e. 64 bytes, not 8 bytes, because `Vec::resize` is given the byte count as
an element count. -/
theorem c4_resize_counterexample :
    moduleListStep [5] [] 0 = .again (List.replicate 8 0) 8 ∧
    bufferBytes (List.replicate 8 0) = 64 ∧
    (64 : Nat) ≠ 8 := by
  decide

/-- First loop iteration of `module_list` with a non-empty module list: the
call measures, `needed > 0 = reserved`, and the buffer is resized to `needed`
ELEMENTS (all zeroed, since the empty buffer received no handles). -/
theorem moduleListStep_from_empty (mods : List Nat) (h : mods ≠ []) :
    moduleListStep mods [] 0 =
      .again (List.replicate (enumProcessModulesNeeded mods) 0)
        (enumProcessModulesNeeded mods) := by
  have hk : 0 < mods.length := List.length_pos.mpr h
  have hne : ¬ enumProcessModulesNeeded mods ≤ 0 := by
    simp only [enumProcessModulesNeeded, handleSize]
    omega
  simp [moduleListStep, enumProcessModulesWrite, listResize, hne]

/-- Second loop iteration of `module_list`: the buffer now has `needed` slots,
which is at least the module count, so the call fills every module handle into
the front of the buffer and `needed ≤ reserved` breaks the loop. -/
theorem moduleListStep_resized (mods : List Nat) :
    moduleListStep mods (List.replicate (enumProcessModulesNeeded mods) 0)
        (enumProcessModulesNeeded mods) =
      .done (mods ++ List.replicate (enumProcessModulesNeeded mods - mods.length) 0)
        (enumProcessModulesNeeded mods) := by
  have hle : mods.length ≤ enumProcessModulesNeeded mods := by
    simp only [enumProcessModulesNeeded, handleSize]
    omega
  simp [moduleListStep, enumProcessModulesWrite, List.take_of_length_le hle,
    List.drop_replicate]

/-- Claim C4 (amended): `module_list` compares bytes needed against the
`reserved` count after each fill; when needed exceeds it, the buffer is
resized to `needed` elements — `needed * handleSize` bytes, at least (not
exactly) the needed byte count — and the call retries; the loop then breaks
and the result is one module per filled slot (`needed / handleSize` of them),
each paired with the issuing process: exactly the process's module handles. -/
theorem c4_module_list_returns_all_modules (pid : Nat) (mods : List Nat) :
    Process.module_list pid mods = some (mods.map (fun h => (h, pid))) ∧
    (mods ≠ [] →
      moduleListStep mods [] 0 =
        .again (List.replicate (enumProcessModulesNeeded mods) 0)
          (enumProcessModulesNeeded mods)) := by
  refine ⟨?_, moduleListStep_from_empty mods⟩
  by_cases h : mods = []
  · subst h
    rfl
  · have hdiv : enumProcessModulesNeeded mods / handleSize = mods.length := by
      simp only [enumProcessModulesNeeded, handleSize]
      omega
    simp only [Process.module_list, moduleListLoop, moduleListStep_from_empty mods h,
      moduleListStep_resized mods, hdiv]
    rw [List.take_left]

/-- Witness for C4's amended theorem at a concrete process with three loaded
modules. -/
theorem c4_module_list_witness :
    Process.module_list 7 [11, 22, 33] = some [(11, 7), (22, 7), (33, 7)] ∧
    moduleListStep [11, 22, 33] [] 0 = .again (List.replicate 24 0) 24 := by
  have h := c4_module_list_returns_all_modules 7 [11, 22, 33]
  exact ⟨h.1, h.2 (by decide)⟩

/-- Claim C5: every thread yielded by `Process::threads()` comes from a
snapshot entry whose owner-process id equals the process's id (no
cross-process leakage), and an entry whose per-thread open fails is silently
skipped, the sequence continuing with the remaining entries. -/
theorem c5_threads_owner_filter_and_skip (pid : Nat) (openOk : Nat → Bool)
    (entries : List THREADENTRY32) :
    (∀ t ∈ threadsOf pid openOk entries,
      ∃ e ∈ entries, e.th32OwnerProcessID = pid ∧ e.th32ThreadID = t.tid ∧
        openOk e.th32ThreadID = true) ∧
    (∀ (e : THREADENTRY32) (rest : List THREADENTRY32),
      e.th32OwnerProcessID = pid → openOk e.th32ThreadID = false →
      threadsOf pid openOk (e :: rest) = threadsOf pid openOk rest) := by
  constructor
  · intro t ht
    simp only [threadsOf, threadIterItems, List.mem_filterMap, List.mem_map,
      List.mem_filter, id_eq] at ht
    obtain ⟨o, ⟨e, ⟨he, hp⟩, hfe⟩, hid⟩ := ht
    rw [hid] at hfe
    unfold threadFromId at hfe
    by_cases hok : openOk e.th32ThreadID
    · rw [if_pos hok] at hfe
      injection hfe with h2
      exact ⟨e, he, by simpa using hp, by rw [← h2], hok⟩
    · rw [if_neg hok] at hfe
      exact absurd hfe (by simp)
  · intro e rest h1 h2
    simp [threadsOf, threadIterItems, List.filter_cons, threadFromId, h1, h2]

/-- Witness for C5 at a concrete snapshot: the single matching openable entry
is traced back to its snapshot record, and a matching entry whose open fails
is skipped. -/
theorem c5_threads_witness :
    (∃ e ∈ [(⟨7, 3⟩ : THREADENTRY32)], e.th32OwnerProcessID = 3 ∧
      e.th32ThreadID = (⟨7⟩ : ThreadHandle).tid ∧ (fun t => t == 7) e.th32ThreadID = true) ∧
    threadsOf 3 (fun t => t == 8) (⟨9, 3⟩ :: [⟨10, 3⟩]) =
      threadsOf 3 (fun t => t == 8) [⟨10, 3⟩] := by
  constructor
  · exact (c5_threads_owner_filter_and_skip 3 (fun t => t == 7) [⟨7, 3⟩]).1 ⟨7⟩ (by decide)
  · exact (c5_threads_owner_filter_and_skip 3 (fun t => t == 8) [⟨10, 3⟩]).2
      ⟨9, 3⟩ [⟨10, 3⟩] (by decide) (by decide)

/-- Claim C6: `Process::from_name` returns the first enumerated process whose
derived name equals the target exactly; with no match it fails with the
no-such-named-process error; a failure to open the enumeration propagates as
its own error; matching is case-sensitive (shown at `"Foo"` vs `"foo"`). -/
theorem c6_from_name_scan :
    (∀ (target : String) (pre post : List ProcSim) (p : ProcSim),
      (∀ q ∈ pre, nameMatches target q = false) → nameMatches target p = true →
      Process.from_name (.ok (pre ++ p :: post)) target = .ok p) ∧
    (∀ (target : String) (ps : List ProcSim),
      (∀ q ∈ ps, nameMatches target q = false) →
      Process.from_name (.ok ps) target = .error (.noProcess target)) ∧
    (∀ (target : String) (e : WinError),
      Process.from_name (.error e) target = .error e) ∧
    Process.from_name (.ok [⟨1, .ok "Foo"⟩]) "foo" = .error (.noProcess "foo") := by
  refine ⟨?_, ?_, fun target e => rfl, by decide⟩
  · intro target pre post p h1 h2
    have hpre : pre.find? (nameMatches target) = none :=
      List.find?_eq_none.mpr (fun x hx => by simp [h1 x hx])
    simp [Process.from_name, List.find?_append, hpre, List.find?_cons, h2]
  · intro target ps h
    have hnone : ps.find? (nameMatches target) = none :=
      List.find?_eq_none.mpr (fun x hx => by simp [h x hx])
    simp [Process.from_name, hnone]

/-- Witness for C6 at a concrete enumeration: the scan passes over a
non-matching process and returns the first exact match. -/
theorem c6_from_name_witness :
    Process.from_name (.ok ([⟨1, .ok "a"⟩] ++ (⟨2, .ok "x"⟩ : ProcSim) :: [])) "x" =
      .ok ⟨2, .ok "x"⟩ :=
  c6_from_name_scan.1 "x" [⟨1, .ok "a"⟩] [] ⟨2, .ok "x"⟩ (by decide) (by decide)

/-- Claim C7 (counterexample): a terminated process whose retrieved real exit
code is 259 — the still-active sentinel itself — makes `is_running` return
true, although the claim promises false for every terminated process whose
exit code has been retrieved. -/
theorem c7_terminated_259_counterexample :
    getExitCodeProcess (.terminated 259) 0 = 259 ∧
    Process.is_running (.terminated 259) = true := by
  decide

/-- Claim C7 (amended): `is_running` is the comparison of the queried status
against 259, so it returns false for a terminated process whose retrieved
real exit code differs from 259, and true for a running process (whose
queried status is the 259 sentinel). -/
theorem c7_is_running_amended :
    (∀ c : Nat, c ≠ 259 → Process.is_running (.terminated c) = false) ∧
    Process.is_running .running = true := by
  refine ⟨?_, by decide⟩
  intro c hc
  simpa [Process.is_running, getExitCodeProcess] using hc

/-- Witness for C7's amended theorem: a process terminated with exit code 0 is
reported as not running. -/
theorem c7_is_running_witness : Process.is_running (.terminated 0) = false :=
  c7_is_running_amended.1 0 (by decide)

/-- Claim C8 (counterexample): on a queried path with no filename component
(here `".."`), `Process::name` does not return an error — it panics, because
the source unwraps `Path::file_name()`'s `Option`. -/
theorem c8_no_filename_panics :
    fileName ['.', '.'] = none ∧
    Process.name (.ok ['.', '.']) = .panicked := by
  decide

/-- Claim C8 (amended): `name()` propagates the error of a failed image-path
query unchanged (so an OS error stays an OS error); when the queried path has
no filename component it panics rather than returning an error; otherwise it
returns the filename component. -/
theorem c8_name_amended :
    (∀ e : WinError, Process.name (.error e) = .err e) ∧
    (∀ p : List Char, fileName p = none → Process.name (.ok p) = .panicked) ∧
    (∀ (p f : List Char), fileName p = some f → Process.name (.ok p) = .ok f) := by
  refine ⟨fun e => rfl, ?_, ?_⟩
  · intro p h
    simp [Process.name, h]
  · intro p f h
    simp [Process.name, h]

/-- Witness for C8's amended theorem: a bare root path has no filename
component, and `name` panics on it. -/
theorem c8_name_witness : Process.name (.ok ['/']) = .panicked :=
  c8_name_amended.2.1 ['/'] (by decide)

/-- Claim C9: when the exit-status query fails, no error reaches the caller:
the `status` variable keeps its initial value 0, which differs from the 259
sentinel, so `is_running` returns false. -/
theorem c9_query_failure_is_running_false :
    getExitCodeProcess .queryFails 0 = 0 ∧
    Process.is_running .queryFails = false := by
  decide

/-- Claim C10: inside the `from_name` scan, a process whose name query fails
is a non-match and is skipped — removing it from the enumeration does not
change the result — and `from_name` still reports the no-such-named-process
error when the only processes present had unreadable names. -/
theorem c10_unreadable_name_skipped :
    (∀ (target : String) (pre post : List ProcSim) (q : ProcSim) (e : WinError),
      q.nameRes = .error e →
      Process.from_name (.ok (pre ++ q :: post)) target =
        Process.from_name (.ok (pre ++ post)) target) ∧
    Process.from_name (.ok [⟨1, .error (.osError 5)⟩]) "x" =
      .error (.noProcess "x") := by
  refine ⟨?_, by decide⟩
  intro target pre post q e h
  have hq : nameMatches target q = false := by simp [nameMatches, h]
  simp [Process.from_name, List.find?_append, List.find?_cons, hq]

/-- Witness for C10 at a concrete enumeration: dropping the process whose name
query errored leaves the scan's result unchanged. -/
theorem c10_unreadable_name_witness :
    Process.from_name (.ok ([] ++ (⟨1, .error (.osError 5)⟩ : ProcSim) :: [⟨2, .ok "x"⟩])) "x" =
      Process.from_name (.ok ([] ++ [⟨2, .ok "x"⟩])) "x" :=
  c10_unreadable_name_skipped.1 "x" [] [⟨2, .ok "x"⟩] ⟨1, .error (.osError 5)⟩
    (.osError 5) rfl
